import Mathlib

/-!
Verification of the tiny-proxy-chain proxy engine (`index.js`).

The JavaScript source is shallowly embedded: the pure helpers
(`makeProxyOptions`, `makeAuth`, `makeSocksRequestOptions`,
`makeHttpRequestOptions`, the CONNECT-target split of
`makeSocksConnection`, and the debug registry `addReq`/`rmReq`) become
Lean functions; the event-driven socket wiring of `makeConnection` /
`makeHTTPProxyConnection` / `makeSocksConnection` becomes an explicit
step function over a session state, with the engine's own writes and
`end()` calls recorded in the state or in an action trace.

External collaborators are modelled, not re-verified:
* the WHATWG `URL` constructor used by the source is modelled by
  `parseURL` (scheme / hostname / port / pathname extraction, userinfo
  stripping, numeric port validation, default-port elision; percent
  encoding and IDNA are out of scope);
* JavaScript's `parseInt` is modelled by `parseIntJS` (whitespace skip,
  sign, `0x` hex prefix, longest digit prefix);
* Node's `Buffer.toString('base64')` is modelled by `base64Encode`
  over the UTF-8 bytes of the input;
* a Node socket is modelled by its `ended`/`writable` flags: `end()`
  is total and idempotent (it never throws, also on an already-ended
  socket), `write` appends to a log of written chunks;
* Node lowercases the header names of an `http.IncomingMessage`
  (`req.headers`); theorems about inbound requests carry that
  invariant as a hypothesis where it matters.
-/

deriving instance DecidableEq for Except

namespace TinyProxyChain

/-- Model of the regex tests `/^socks/` and `/^socks5?:/`: whether
`s` starts with the literal `p`. -/
def jsStartsWith (p s : String) : Bool := p.toList.isPrefixOf s.toList

/-- Truthiness of an optional JS string: `undefined` and `''` are falsy. -/
def jsTruthy : Option String → Bool
  | none => false
  | some s => s != ""

/-- Lowercase every character of a string (ASCII, as for header names). -/
def lowerStr (s : String) : String :=
  String.mk (s.toList.map Char.toLower)

/-- The base64 alphabet used by `Buffer.toString('base64')`. -/
def b64chars : List Char :=
  "ABCDEFGHIJKLMNOPQRSTUVWXYZabcdefghijklmnopqrstuvwxyz0123456789+/".toList

/-- The base64 digit for a 6-bit value. -/
def b64char (n : Nat) : Char := b64chars.getD n 'A'

/-- Base64-encode a byte list, three bytes to four digits, `=`-padded. -/
def base64Go : List Nat → List Char
  | [] => []
  | [a] => [b64char (a / 4), b64char (a % 4 * 16), '=', '=']
  | [a, b] => [b64char (a / 4), b64char (a % 4 * 16 + b / 16), b64char (b % 16 * 4), '=']
  | a :: b :: c :: rest =>
    b64char (a / 4) :: b64char (a % 4 * 16 + b / 16) ::
      b64char (b % 16 * 4 + c / 64) :: b64char (c % 64) :: base64Go rest

/-- Model of `Buffer.from(s).toString('base64')`. -/
def base64Encode (bs : List Nat) : String := String.mk (base64Go bs)

/-- `TinyProxyChain.makeAuth` from the source: a Basic-auth token. -/
def makeAuth (proxyUsername proxyPassword : String) : String :=
  "Basic " ++
    base64Encode (((proxyUsername ++ ":" ++ proxyPassword).toUTF8.data.toList).map UInt8.toNat)

/-- Split a character list at the first occurrence of `sep`. -/
def splitFirst (sep : Char) : List Char → Option (List Char × List Char)
  | [] => none
  | c :: rest =>
    if c = sep then some ([], rest)
    else match splitFirst sep rest with
      | none => none
      | some (a, b) => some (c :: a, b)

/-- Split a character list at the last occurrence of `sep`. -/
def splitLast (sep : Char) (cs : List Char) : Option (List Char × List Char) :=
  match splitFirst sep cs.reverse with
  | none => none
  | some (a, b) => some (b.reverse, a.reverse)

/-- Characters allowed in a URL scheme after the leading letter. -/
def isSchemeChar (c : Char) : Bool :=
  c.isAlphanum || c = '+' || c = '-' || c = '.'

/-- Whether the scheme is a WHATWG special scheme. -/
def isSpecialScheme (s : String) : Bool :=
  s = "http" || s = "https" || s = "ws" || s = "wss" || s = "ftp" || s = "file"

/-- Default port of a special scheme, elided by the URL parser. -/
def defaultPort (s : String) : Option Nat :=
  if s = "http" || s = "ws" then some 80
  else if s = "https" || s = "wss" then some 443
  else if s = "ftp" then some 21
  else none

/-- Value of a digit list in base 10. -/
def digitsToNat (cs : List Char) : Nat :=
  cs.foldl (fun n c => n * 10 + (c.toNat - '0'.toNat)) 0

/-- Validate and normalize the port component of an authority:
empty is allowed, digits must name a port below 2^16, a default port
is elided, anything else is a parse failure. -/
def portOf (scheme : String) (pcs : List Char) : Option String :=
  if pcs = [] then some ""
  else if pcs.all Char.isDigit then
    let n := digitsToNat pcs
    if n ≥ 65536 then none
    else if defaultPort scheme = some n then some ""
    else some (toString n)
  else none

/-- Result of parsing a URL: the components the source reads. -/
structure URLRec where
  scheme : String
  hostname : String
  port : String
  pathname : String
deriving DecidableEq, Repr

/-- The part of an authority after the last `@`, and whether a
userinfo part was present. -/
def afterLastAt (cs : List Char) : List Char × Bool :=
  match splitLast '@' cs with
  | none => (cs, false)
  | some (_, rest) => (rest, true)

/-- Split an authority's host-port part into hostname and port. -/
def hostPortOf (scheme : String) (hostport : List Char) : Option (String × String) :=
  match hostport with
  | '[' :: r6 =>
    match splitFirst ']' r6 with
    | none => none
    | some (h6, restAfter) =>
      match restAfter with
      | [] => some ("[" ++ String.mk h6 ++ "]", "")
      | ':' :: pcs => (portOf scheme pcs).map (fun p => ("[" ++ String.mk h6 ++ "]", p))
      | _ => none
  | _ =>
    match splitLast ':' hostport with
    | none => some (lowerStr (String.mk hostport), "")
    | some (hcs, pcs) => (portOf scheme pcs).map (fun p => (lowerStr (String.mk hcs), p))

/-- Model of the WHATWG `URL` constructor as used by the source:
`none` models the constructor throwing `Invalid URL`. -/
def parseURL (s : String) : Option URLRec :=
  match splitFirst ':' s.toList with
  | none => none
  | some (schemeCs, rest) =>
    match schemeCs with
    | [] => none
    | c0 :: crest =>
      if !c0.isAlpha then none
      else if !crest.all isSchemeChar then none
      else
        let scheme := lowerStr (String.mk (c0 :: crest))
        match rest with
        | '/' :: '/' :: rest2 =>
          let authority := rest2.takeWhile (fun c => !(c = '/' || c = '?' || c = '#'))
          let after := rest2.drop authority.length
          let (hostport, hasUser) := afterLastAt authority
          match hostPortOf scheme hostport with
          | none => none
          | some (host, port) =>
            if host = "" && (hasUser || port != "" || (isSpecialScheme scheme && scheme != "file"))
            then none
            else
              let path0 := after.takeWhile (fun c => !(c = '?' || c = '#'))
              let pathname :=
                if path0 = [] && isSpecialScheme scheme then "/" else String.mk path0
              some { scheme := scheme, hostname := host, port := port, pathname := pathname }
        | _ =>
          let path0 := rest.takeWhile (fun c => !(c = '?' || c = '#'))
          some { scheme := scheme, hostname := "", port := "", pathname := String.mk path0 }

/-- The upstream descriptor built by `makeProxyOptions` (the source's
`TinyProxyOptions` typedef). -/
structure TinyProxyOptions where
  proxyType : String
  socksType : Option Nat
  proxyAuth : String
  proxyURL : String
  proxyHost : String
  proxyPort : String
  proxyUsername : Option String
  proxyPassword : Option String
deriving DecidableEq, Repr

/-- `TinyProxyChain.makeProxyOptions` from the source.  `Except.error`
models the `new URL(proxyURL)` call throwing on an unparseable URL;
`.ok none` is the source's `null` return (absent/empty URL, or a URL
whose parsed hostname is empty). -/
def makeProxyOptions (proxyURL : Option String) (proxyUsername proxyPassword : Option String) :
    Except String (Option TinyProxyOptions) :=
  match proxyURL with
  | none => .ok none
  | some url =>
    if url = "" then .ok none
    else match parseURL url with
      | none => .error "Invalid URL"
      | some u =>
        if u.hostname = "" then .ok none
        else .ok (some {
          proxyType := if jsStartsWith "socks" url then "socks" else "http"
          socksType :=
            if jsStartsWith "socks" url then
              some (if jsStartsWith "socks:" url || jsStartsWith "socks5:" url then 5 else 4)
            else none
          proxyAuth :=
            if jsTruthy proxyUsername && jsTruthy proxyPassword then
              makeAuth (proxyUsername.getD "") (proxyPassword.getD "")
            else ""
          proxyURL := url
          proxyHost := u.hostname
          proxyPort := u.port
          proxyUsername := proxyUsername
          proxyPassword := proxyPassword })

/-- The descriptor `makeProxyOptions` builds for
`socks4a://example.com:1080` with no credentials. -/
def socks4aDescriptor : TinyProxyOptions :=
  { proxyType := "socks", socksType := some 4, proxyAuth := ""
    proxyURL := "socks4a://example.com:1080", proxyHost := "example.com"
    proxyPort := "1080", proxyUsername := none, proxyPassword := none }

/-- The descriptor `makeProxyOptions` builds for `socks://h:1` with
credentials `a`/`b`. -/
def socks5Descriptor : TinyProxyOptions :=
  { proxyType := "socks", socksType := some 5, proxyAuth := makeAuth "a" "b"
    proxyURL := "socks://h:1", proxyHost := "h", proxyPort := "1"
    proxyUsername := some "a", proxyPassword := some "b" }

/-- The descriptor `makeProxyOptions` builds for `socks4://x:9` with a
username but no password. -/
def socks4Descriptor : TinyProxyOptions :=
  { proxyType := "socks", socksType := some 4, proxyAuth := ""
    proxyURL := "socks4://x:9", proxyHost := "x", proxyPort := "9"
    proxyUsername := some "u", proxyPassword := none }

/-- A JS object holding header names and values, in insertion order.
Keys are matched exactly, as JS property access does. -/
abbrev Headers := List (String × String)

/-- JS `obj[k] = v` after a spread: overwrite the value at an existing
exact key in place, otherwise append the key last. -/
def objSet (hs : Headers) (k v : String) : Headers :=
  if hs.any (fun e => e.1 = k) then hs.map (fun e => if e.1 = k then (k, v) else e)
  else hs ++ [(k, v)]

/-- JS `delete obj[k]`: removes the exact key only. -/
def objDelete (hs : Headers) (k : String) : Headers :=
  hs.filter (fun e => e.1 != k)

/-- The value a header name resolves to when the object is replayed
through `http.request`'s `setHeader` calls: names compare
case-insensitively and the last assignment wins. -/
def lookupCILast (hs : Headers) (k : String) : Option String :=
  ((hs.filter (fun e => lowerStr e.1 = lowerStr k)).getLast?).map Prod.snd

/-- The parts of an `http.IncomingMessage` the source reads. -/
structure IncomingRequest where
  url : String
  method : String
  httpVersion : String
  headers : Headers
deriving DecidableEq, Repr

/-- The outbound request options built by the forwarder.  `agent`
models the SOCKS transport: `some proxyURL` stands for
`new SocksProxyAgent(proxyURL)`, `none` for the default transport. -/
structure RequestOptions where
  hostname : String
  port : String
  path : String
  method : String
  headers : Headers
  agent : Option String
deriving DecidableEq, Repr

/-- `TinyProxyChain.makeSocksRequestOptions` from the source.  `none`
models `new URL(req.url)` throwing. -/
def makeSocksRequestOptions (proxyOptions : TinyProxyOptions) (req : IncomingRequest) :
    Option RequestOptions :=
  (parseURL req.url).map fun u =>
    { hostname := u.hostname
      port := u.port
      path := u.pathname
      method := req.method
      headers := objDelete req.headers "Proxy-Authorization"
      agent := some proxyOptions.proxyURL }

/-- `TinyProxyChain.makeHttpRequestOptions` from the source. -/
def makeHttpRequestOptions (proxyOptions : TinyProxyOptions) (req : IncomingRequest) :
    RequestOptions :=
  { hostname := proxyOptions.proxyHost
    port := proxyOptions.proxyPort
    path := req.url
    method := req.method
    headers := objSet req.headers "Proxy-Authorization" proxyOptions.proxyAuth
    agent := none }

/-- JS whitespace skipped by `parseInt`. -/
def isJsSpace (c : Char) : Bool :=
  c = ' ' || c = '\t' || c = '\n' || c = '\x0d' || c = '\x0c' || c = '\x0b'

/-- Value of a hex-digit list. -/
def hexToNat (cs : List Char) : Nat :=
  cs.foldl (fun n c =>
    n * 16 + (if c.isDigit then c.toNat - '0'.toNat
              else if 'a' ≤ c ∧ c ≤ 'f' then c.toNat - 'a'.toNat + 10
              else c.toNat - 'A'.toNat + 10)) 0

/-- Model of JS `parseInt(s)` (no radix argument): skip whitespace,
optional sign, `0x`/`0X` switches to hex, then the longest digit
prefix; no digits means `NaN`, modelled as `none`. -/
def parseIntJS (s : String) : Option Int :=
  let cs := s.toList.dropWhile isJsSpace
  let (sign, cs) : Int × List Char :=
    match cs with
    | '-' :: r => (-1, r)
    | '+' :: r => (1, r)
    | _ => (1, cs)
  match cs with
  | '0' :: x :: r =>
    if x = 'x' || x = 'X' then
      let ds := r.takeWhile (fun c => c.isDigit || ('a' ≤ c && c ≤ 'f') || ('A' ≤ c && c ≤ 'F'))
      if ds = [] then none else some (sign * hexToNat ds)
    else
      some (sign * digitsToNat (('0' :: x :: r).takeWhile Char.isDigit))
  | _ =>
    let ds := cs.takeWhile Char.isDigit
    if ds = [] then none else some (sign * digitsToNat ds)

/-- JS `String.prototype.split` with a single-character separator. -/
def splitOnChar (sep : Char) : List Char → List (List Char)
  | [] => [[]]
  | c :: rest =>
    match splitOnChar sep rest with
    | [] => [[c]]
    | g :: gs => if c = sep then [] :: g :: gs else (c :: g) :: gs

/-- The `const [host, port] = req.url.split(':')` destructuring in
`makeSocksConnection`: the first component. -/
def splitTargetHost (url : String) : String :=
  String.mk ((splitOnChar ':' url.toList).headD [])

/-- The second component of `req.url.split(':')`, `none` modelling
`undefined` when the target has no colon. -/
def splitTargetPort (url : String) : Option String :=
  ((splitOnChar ':' url.toList).get? 1).map String.mk

/-- The SOCKS destination built by `makeSocksConnection`:
`{ host, port: parseInt(port) || 80 }` (`NaN` and `0` are falsy). -/
def socksDestination (url : String) : String × Int :=
  (splitTargetHost url,
   match splitTargetPort url with
   | none => 80
   | some p =>
     match parseIntJS p with
     | none => 80
     | some n => if n = 0 then 80 else n)

/-- The debug connection registry: a `Map` from id to `{id, url}`,
modelled as an insertion-ordered list with exact natural keys. -/
abbrev Registry := List (Nat × String)

/-- `this.connections.has(id)`. -/
def regHas (r : Registry) (id : Nat) : Bool := r.any (fun e => e.1 = id)

/-- `TinyProxyChain.addReq` from the source: insert `{id, url}` only
when the id is not yet present. -/
def addReq (r : Registry) (id : Nat) (url : String) : Registry :=
  if regHas r id then r else r ++ [(id, url)]

/-- `TinyProxyChain.rmReq` from the source: delete a present id, or
log `Already deleted` for a missing one.  The Boolean is true when the
anomaly branch was taken; the function is total, so no error can be
raised either way. -/
def rmReq (r : Registry) (id : Nat) : Registry × Bool :=
  if regHas r id then (r.filter (fun e => e.1 != id), false) else (r, true)

/-- Observable actions of the engine, recorded in program order.
`httpRequest`, `socksConnect` and `netConnect` are the three ways an
upstream is contacted; the other constructors are socket/response
operations on the client side. -/
inductive Act where
  | httpRequest (hostname port path : String)
  | socksConnect (proxyHost : String) (destHost : String) (destPort : Int)
  | netConnect (host port : String)
  | regAdd (id : Nat)
  | resEnd
  | resSetStatus (n : Nat)
  | proxyReqEnd
  | clientWrite (s : String)
  | clientEnd
  | srvEnd
  | throwErr
deriving DecidableEq, Repr

/-- Whether an action contacts an upstream. -/
def isUpstreamAttempt : Act → Bool
  | .httpRequest .. => true
  | .socksConnect .. => true
  | .netConnect .. => true
  | _ => false

/-- Whether an action writes bytes to the client. -/
def isClientWrite : Act → Bool
  | .clientWrite _ => true
  | _ => false

/-- The synchronous decision of `makeRequest` after the policy hook
returned: `res.end()` on rejection, otherwise `http.request(options)`
with the options built for the selected upstream kind. -/
def makeRequestTrace (hook : Option TinyProxyOptions) (req : IncomingRequest) : List Act :=
  match hook with
  | none => [Act.resEnd]
  | some popt =>
    if popt.proxyType = "socks" then
      match makeSocksRequestOptions popt req with
      | none => [Act.throwErr]
      | some o => [Act.httpRequest o.hostname o.port o.path]
    else
      let o := makeHttpRequestOptions popt req
      [Act.httpRequest o.hostname o.port o.path]

/-- The synchronous decision of `makeConnection` after the optional
registry add: `clientSocket.end()` on rejection, otherwise the
upstream connection attempt of the selected tunnel establisher. -/
def makeConnectionStartTrace (debug : Bool) (hook : Option TinyProxyOptions)
    (req : IncomingRequest) (id : Nat) : List Act :=
  (if debug then [Act.regAdd id] else []) ++
    match hook with
    | none => [Act.clientEnd]
    | some popt =>
      if popt.proxyType = "socks" then
        [Act.socksConnect popt.proxyHost (socksDestination req.url).1 (socksDestination req.url).2]
      else
        [Act.netConnect popt.proxyHost popt.proxyPort]

/-- The raw failure line written to a CONNECT client. -/
def err500Line (version : String) : String :=
  "HTTP/" ++ version ++ " 500 Connection error\x0d\n\x0d\n"

/-- The `proxyReq.on('error')` handler of `makeRequest`
(lines 225-229): `proxyReq.end(); res.statusCode = 500; res.end()`. -/
def proxyReqErrorActs : List Act :=
  [Act.proxyReqEnd, Act.resSetStatus 500, Act.resEnd]

/-- The `catch` block of `makeConnection` (lines 416-426): write the
raw 500 line only while the client socket is writable, then end the
client socket, then end the upstream socket when one exists. -/
def connectCatchTrace (version : String) (clientWritable srvPresent : Bool) : List Act :=
  (if clientWritable then [Act.clientWrite (err500Line version)] else []) ++
    [Act.clientEnd] ++ (if srvPresent then [Act.srvEnd] else [])

/-- A Node socket as the handlers observe it: `end()` is total and
idempotent, and makes the socket non-writable. -/
structure SockState where
  ended : Bool
  writable : Bool
deriving DecidableEq, Repr

/-- `socket.end()`: never throws, also on an already-ended socket. -/
def endSock (_s : SockState) : SockState := { ended := true, writable := false }

/-- The per-session state of a CONNECT tunnel: the two sockets, the
`alive` flag, the chunks the engine wrote to each side, the
fired-flags of the `once` handlers, and whether the
`srvSocket.pipe(clientSocket)` relay was started. -/
structure TState where
  client : SockState
  srv : SockState
  alive : Bool
  clientWrites : List String
  srvWrites : List String
  clientCloseFired : Bool
  srvCloseFired : Bool
  srvEndFired : Bool
  pipeStarted : Bool
deriving DecidableEq, Repr

/-- The fresh session state of a successfully established tunnel. -/
def initTunnel : TState :=
  { client := { ended := false, writable := true }
    srv := { ended := false, writable := true }
    alive := true
    clientWrites := []
    srvWrites := []
    clientCloseFired := false
    srvCloseFired := false
    srvEndFired := false
    pipeStarted := false }

/-- The `clientSocket.on('error')` handler installed by
`makeConnection` at line 347: `alive = false; if (srvSocket)
srvSocket.end(); clientSocket.end()` (upstream socket present). -/
def onClientErrorMkConn (t : TState) : TState :=
  { t with alive := false, srv := endSock t.srv, client := endSock t.client }

/-- The same line-347 handler before the tunnel exists
(`srvSocket` still `null`, so only the client socket is ended). -/
def preClientError (t : TState) : TState :=
  { t with alive := false, client := endSock t.client }

/-- The `clientSocket.on('error')` handler installed by
`makeHTTPProxyConnection` at line 310: `srvSocket.end();
clientSocket.end()`. -/
def onClientErrorHttpConn (t : TState) : TState :=
  { t with srv := endSock t.srv, client := endSock t.client }

/-- The error handler attached to the `srvSocket.pipe(clientSocket)`
result — i.e. to the client socket — at line 397: `alive = false;
srvSocket.end(); if (clientSocket.writable) write 500; clientSocket.end()`. -/
def onClientErrorPipe (version : String) (t : TState) : TState :=
  { t with alive := false
           srv := endSock t.srv
           clientWrites :=
             if t.client.writable then t.clientWrites ++ [err500Line version]
             else t.clientWrites
           client := endSock t.client }

/-- The `srvSocket.on('error')` handler installed synchronously by
`makeHTTPProxyConnection` at line 315 (and by `makeSocksConnection` at
line 265): `if (clientSocket.writable) write 500; clientSocket.end();
srvSocket.end()`. -/
def onSrvErrorWrite500 (version : String) (t : TState) : TState :=
  { t with clientWrites :=
             if t.client.writable then t.clientWrites ++ [err500Line version]
             else t.clientWrites
           client := endSock t.client
           srv := endSock t.srv }

/-- The `srvSocket.on('error')` handler installed inside the connect
callback of `makeHTTPProxyConnection` at line 298: `srvSocket.end();
clientSocket.end()`. -/
def onSrvErrorEndBoth (t : TState) : TState :=
  { t with srv := endSock t.srv, client := endSock t.client }

/-- Socket events a tunneled session can observe. -/
inductive TEvent where
  | clientClose
  | clientError
  | srvClose
  | srvError
  | srvEndEv
  | clientData (d : String)
deriving DecidableEq, Repr

/-- One event step of a session tunneled through an HTTP upstream: the
handlers of `makeConnection` (lines 347, 374, 378, 388, 397) and
`makeHTTPProxyConnection` (lines 298, 306, 310, 315), run in their
installation order. -/
def stepHTTP (version : String) (t : TState) : TEvent → TState
  | .clientError => onClientErrorPipe version (onClientErrorHttpConn (onClientErrorMkConn t))
  | .clientClose =>
    if t.clientCloseFired then t
    else { t with clientCloseFired := true, srv := endSock t.srv }
  | .srvClose =>
    if t.srvCloseFired then t
    else { t with srvCloseFired := true, client := endSock t.client }
  | .srvEndEv =>
    if t.srvEndFired then t
    else { t with srvEndFired := true, client := endSock t.client }
  | .srvError => onSrvErrorEndBoth (onSrvErrorWrite500 version t)
  | .clientData d =>
    if t.srv.writable then { t with srvWrites := t.srvWrites ++ [d] } else t

/-- One event step of a session tunneled through a SOCKS upstream: the
handlers of `makeConnection` (lines 347, 374, 378, 388, 397) and
`makeSocksConnection` (lines 261, 265). -/
def stepSocks (version : String) (t : TState) : TEvent → TState
  | .clientError => onClientErrorPipe version (onClientErrorMkConn t)
  | .clientClose =>
    if t.clientCloseFired then t
    else { t with clientCloseFired := true, srv := endSock t.srv }
  | .srvClose =>
    if t.srvCloseFired then t
    else { t with srvCloseFired := true, client := endSock t.client }
  | .srvEndEv =>
    if t.srvEndFired then t
    else { t with srvEndFired := true, client := endSock t.client }
  | .srvError => onSrvErrorWrite500 version t
  | .clientData d =>
    if t.srv.writable then { t with srvWrites := t.srvWrites ++ [d] } else t

/-- Run a tunneled session through a list of events (HTTP upstream). -/
def runHTTP (version : String) (evs : List TEvent) : TState :=
  evs.foldl (stepHTTP version) initTunnel

/-- Run a tunneled session through a list of events (SOCKS upstream). -/
def runSocks (version : String) (evs : List TEvent) : TState :=
  evs.foldl (stepSocks version) initTunnel

/-- The straight-line code of `makeConnection` after the tunnel
establisher returned (lines 374-415): install the two close handlers,
write the buffered head bytes if the upstream is writable, install the
data relay, start `srvSocket.pipe(clientSocket)` only when both sides
are writable (ending both otherwise), and end the upstream socket when
the client errored during establishment (`!alive`). -/
def postTunnel (head : Option String) (t : TState) : TState :=
  let t1 : TState :=
    match head with
    | some h =>
      if 0 < h.length then
        if t.srv.writable then { t with srvWrites := t.srvWrites ++ [h] } else t
      else t
    | none => t
  let t2 : TState :=
    if t1.client.writable && t1.srv.writable then { t1 with pipeStarted := true }
    else { t1 with client := endSock t1.client, srv := endSock t1.srv }
  if t2.alive then t2 else { t2 with srv := endSock t2.srv }

/-- Session invariant tying the `once`-handler fired-flags to their
effects: a fired close/end handler has already ended the peer. -/
def tinv (t : TState) : Prop :=
  (t.clientCloseFired = true → t.srv.ended = true) ∧
  (t.srvCloseFired = true → t.client.ended = true) ∧
  (t.srvEndFired = true → t.client.ended = true)

/-- A SOCKS5 upstream descriptor used as a concrete session input. -/
def socksGateway : TinyProxyOptions :=
  { proxyType := "socks", socksType := some 5, proxyAuth := ""
    proxyURL := "socks://127.0.0.1:1080", proxyHost := "127.0.0.1", proxyPort := "1080"
    proxyUsername := none, proxyPassword := none }

/-- A plain proxied GET request carrying a proxy-authorization header,
with the header names lowercased the way Node delivers them. -/
def authedGetReq : IncomingRequest :=
  { url := "http://example.com/", method := "GET", httpVersion := "1.1"
    headers := [("host", "example.com"), ("proxy-authorization", "Basic dXNlcjpwYXNz")] }

/-- An HTTP upstream descriptor used as a concrete session input. -/
def httpGateway : TinyProxyOptions :=
  { proxyType := "http", socksType := none, proxyAuth := makeAuth "user" "pass"
    proxyURL := "http://10.0.0.1:3128", proxyHost := "10.0.0.1", proxyPort := "3128"
    proxyUsername := some "user", proxyPassword := some "pass" }

/-!  Sanity checks of the embedded primitives on concrete inputs. -/

example : parseURL "http://example.com/" =
    some { scheme := "http", hostname := "example.com", port := "", pathname := "/" } := by
  decide

example : parseURL "socks4a://example.com:1080" =
    some { scheme := "socks4a", hostname := "example.com", port := "1080", pathname := "" } := by
  decide

example : parseURL "http://" = none := by decide

example : socksDestination "example.com:443" = ("example.com", 443) := by decide
example : socksDestination "example.com" = ("example.com", 80) := by decide
example : socksDestination "example.com:x" = ("example.com", 80) := by decide
example : makeAuth "user" "pass" = "Basic dXNlcjpwYXNz" := by decide

/-- Claim C8: for every CONNECT request routed to a SOCKS upstream,
the target is split into `(host, port)` and the SOCKS destination port
is 80 whenever the port component is missing or unparseable as an
integer. -/
theorem socks_dest_port_default (url : String)
    (h : splitTargetPort url = none ∨
         ∃ p, splitTargetPort url = some p ∧ parseIntJS p = none) :
    (socksDestination url).2 = 80 ∧ (socksDestination url).1 = splitTargetHost url := by
  refine ⟨?_, rfl⟩
  unfold socksDestination
  rcases h with h | ⟨p, hp, hpi⟩
  · simp [h]
  · simp [hp, hpi]

/-- Witness for C8 at the portless target `example.com` and the
non-numeric-port target `example.com:https`. -/
theorem socks_dest_port_default_witness :
    ((socksDestination "example.com").2 = 80 ∧
     (socksDestination "example.com").1 = splitTargetHost "example.com") ∧
    ((socksDestination "example.com:https").2 = 80 ∧
     (socksDestination "example.com:https").1 = splitTargetHost "example.com:https") :=
  ⟨socks_dest_port_default "example.com" (Or.inl (by decide)),
   socks_dest_port_default "example.com:https" (Or.inr ⟨"https", by decide, by decide⟩)⟩

/-- Claim C9: a registry add inserts `{id, url}` only when the id is
not already present (a repeated add is a no-op), a remove of a missing
id raises no error and leaves the registry unchanged (only the anomaly
flag is reported), and a remove of a present id deletes exactly the
entries keyed by that id. -/
theorem registry_ops_spec (r : Registry) (id : Nat) (url : String) :
    (regHas r id = true → addReq r id url = r) ∧
    (regHas r id = false → addReq r id url = r ++ [(id, url)]) ∧
    (regHas r id = false → rmReq r id = (r, true)) ∧
    (regHas r id = true →
      (rmReq r id).2 = false ∧
      ∀ e : Nat × String, e ∈ (rmReq r id).1 ↔ e ∈ r ∧ e.1 ≠ id) := by
  refine ⟨fun h => ?_, fun h => ?_, fun h => ?_, fun h => ?_⟩
  · simp [addReq, h]
  · simp [addReq, h]
  · simp [rmReq, h]
  · refine ⟨by simp [rmReq, h], fun e => ?_⟩
    simp [rmReq, h, List.mem_filter]

/-- Witness for C9 on the one-entry registry `[(1, "a")]` and on a
registry not containing the removed id. -/
theorem registry_ops_spec_witness :
    addReq [(1, "a")] 1 "b" = [(1, "a")] ∧
    addReq [(2, "c")] 1 "b" = [(2, "c"), (1, "b")] ∧
    rmReq [(2, "c")] 1 = ([(2, "c")], true) ∧
    ((rmReq [(1, "a")] 1).2 = false ∧
      ∀ e : Nat × String, e ∈ (rmReq [(1, "a")] 1).1 ↔ e ∈ [(1, "a")] ∧ e.1 ≠ 1) :=
  ⟨(registry_ops_spec [(1, "a")] 1 "b").1 (by decide),
   (registry_ops_spec [(2, "c")] 1 "b").2.1 (by decide),
   (registry_ops_spec [(2, "c")] 1 "b").2.2.1 (by decide),
   (registry_ops_spec [(1, "a")] 1 "b").2.2.2 (by decide)⟩

/-- Claim C3: when the policy hook returns null, both handlers end the
client side immediately, contact no upstream, and write no response
body of their own. -/
theorem policy_null_rejects_without_upstream (req : IncomingRequest) (debug : Bool) (id : Nat) :
    (Act.resEnd ∈ makeRequestTrace none req ∧
      (makeRequestTrace none req).all (fun a => !isUpstreamAttempt a && !isClientWrite a) = true) ∧
    (Act.clientEnd ∈ makeConnectionStartTrace debug none req id ∧
      (makeConnectionStartTrace debug none req id).all
        (fun a => !isUpstreamAttempt a && !isClientWrite a) = true) := by
  cases debug <;>
    simp [makeRequestTrace, makeConnectionStartTrace, isUpstreamAttempt, isClientWrite]

/-- Claim C2: when the client socket errors before the upstream stream
becomes available (the line-347 handler runs with `srvSocket` still
null), the post-establishment code never starts the
upstream-to-client pipe, ends the upstream socket, and writes no bytes
to the client stream whose peer died. -/
theorem client_error_before_upstream_ends_srv (head : Option String) :
    (postTunnel head (preClientError initTunnel)).pipeStarted = false ∧
    (postTunnel head (preClientError initTunnel)).srv.ended = true ∧
    (postTunnel head (preClientError initTunnel)).clientWrites = [] := by
  cases head with
  | none => decide
  | some h =>
    simp only [postTunnel, preClientError, initTunnel, endSock]
    split <;> split <;> simp_all

/-- Claim C7 counterexample: in a CONNECT session whose tunnel
establishment fails after the client socket already stopped being
writable, the `catch` block writes no 500 line at all — the claim's
unconditional "raw line is written to the client" is false there. -/
theorem connect_error_no_write_counterexample :
    Act.clientWrite (err500Line "1.1") ∉ connectCatchTrace "1.1" false false ∧
    Act.clientEnd ∈ connectCatchTrace "1.1" false false := by
  decide

/-- Claim C7 (amended): a plain-request upstream error makes the
handler end the outbound request, answer status 500 and end the
response, contacting no upstream again; and a failed CONNECT tunnel
writes the raw `HTTP/<version> 500 Connection error` line — provided
the client socket is still writable — before ending the client socket
(and then the upstream socket, when one exists), contacting no
upstream again. -/
theorem upstream_error_terminal (version : String) (srvPresent : Bool) :
    (proxyReqErrorActs = [Act.proxyReqEnd, Act.resSetStatus 500, Act.resEnd] ∧
      proxyReqErrorActs.all (fun a => !isUpstreamAttempt a) = true) ∧
    (connectCatchTrace version true srvPresent =
        Act.clientWrite (err500Line version) :: Act.clientEnd ::
          (if srvPresent then [Act.srvEnd] else []) ∧
      (connectCatchTrace version true srvPresent).all (fun a => !isUpstreamAttempt a) = true) := by
  cases srvPresent <;> simp [proxyReqErrorActs, connectCatchTrace, isUpstreamAttempt]

/-- Claim C4 counterexample: the scheme `socks4a` starts with `socks`
and is not exactly `socks4`, so the claim demands SOCKS5, but the code
(`/^socks5?:/`) classifies it as SOCKS4; and for a URL with no
parseable host at all (`http://`), `new URL` throws, so the function
raises instead of returning null. -/
theorem makeProxyOptions_claim_counterexample :
    makeProxyOptions (some "socks4a://example.com:1080") none none =
      .ok (some socks4aDescriptor) ∧
    socks4aDescriptor.socksType = some 4 ∧
    (parseURL "socks4a://example.com:1080").map URLRec.scheme = some "socks4a" ∧
    makeProxyOptions (some "http://") none none = .error "Invalid URL" := by
  refine ⟨by decide, rfl, by decide, by decide⟩

/-- Claim C4 (amended): `makeProxyOptions` returns null when the url
is absent or empty or parses with an empty host, raises when the url
is unparseable, and otherwise returns a descriptor whose kind is
SOCKS5 when the url starts with `socks:` or `socks5:`, SOCKS4 when it
starts with `socks` otherwise, and HTTP when it does not start with
`socks`. -/
theorem makeProxyOptions_amended (u p : Option String) :
    makeProxyOptions none u p = .ok none ∧
    makeProxyOptions (some "") u p = .ok none ∧
    (∀ s, s ≠ "" → parseURL s = none →
        makeProxyOptions (some s) u p = .error "Invalid URL") ∧
    (∀ s r, s ≠ "" → parseURL s = some r → r.hostname = "" →
        makeProxyOptions (some s) u p = .ok none) ∧
    (∀ s d, makeProxyOptions (some s) u p = .ok (some d) →
        d.proxyType = (if jsStartsWith "socks" s then "socks" else "http") ∧
        d.socksType = (if jsStartsWith "socks" s then
            some (if jsStartsWith "socks:" s || jsStartsWith "socks5:" s then 5 else 4)
          else none)) := by
  refine ⟨rfl, rfl, ?_, ?_, ?_⟩
  · intro s hs hp
    simp [makeProxyOptions, hs, hp]
  · intro s r hs hp hh
    simp [makeProxyOptions, hs, hp, hh]
  · intro s d h
    by_cases hs : s = ""
    · simp [makeProxyOptions, hs] at h
    · rcases hq : parseURL s with _ | r
      · simp [makeProxyOptions, hs, hq] at h
      · by_cases hh : r.hostname = ""
        · simp [makeProxyOptions, hs, hq, hh] at h
        · simp [makeProxyOptions, hs, hq, hh] at h
          rw [← h]
          constructor <;> simp

/-- Witness for C4 applying the amended theorem at `socks://h:1` with
credentials present. -/
theorem makeProxyOptions_amended_witness :
    socks5Descriptor.proxyType =
      (if jsStartsWith "socks" "socks://h:1" then "socks" else "http") ∧
    socks5Descriptor.socksType =
      (if jsStartsWith "socks" "socks://h:1" then
          some (if jsStartsWith "socks:" "socks://h:1" || jsStartsWith "socks5:" "socks://h:1"
                then 5 else 4)
        else none) :=
  (makeProxyOptions_amended (some "a") (some "b")).2.2.2.2 "socks://h:1" socks5Descriptor (by decide)

/-- Claim C10: every non-null descriptor has `socksType` 4 or 5
exactly when `proxyType` is `socks` and `socksType` null exactly when
`proxyType` is `http`, and `proxyAuth` is empty unless both
credentials are present and nonempty, in which case it is
`makeAuth username password`. -/
theorem descriptor_shape_invariant (url : String) (u p : Option String) (d : TinyProxyOptions)
    (h : makeProxyOptions (some url) u p = .ok (some d)) :
    ((∃ n, d.socksType = some n ∧ (n = 4 ∨ n = 5)) ↔ d.proxyType = "socks") ∧
    (d.socksType = none ↔ d.proxyType = "http") ∧
    ((jsTruthy u = false ∨ jsTruthy p = false) → d.proxyAuth = "") ∧
    (jsTruthy u = true → jsTruthy p = true →
        d.proxyAuth = makeAuth (u.getD "") (p.getD "")) := by
  by_cases hs : url = ""
  · simp [makeProxyOptions, hs] at h
  · rcases hq : parseURL url with _ | r
    · simp [makeProxyOptions, hs, hq] at h
    · by_cases hh : r.hostname = ""
      · simp [makeProxyOptions, hs, hq, hh] at h
      · simp [makeProxyOptions, hs, hq, hh] at h
        subst h
        by_cases hsocks : jsStartsWith "socks" url <;>
          by_cases hu : jsTruthy u <;>
            by_cases hp2 : jsTruthy p <;>
              simp [hsocks, hu, hp2]

/-- Witness for C10 at `socks4://x:9` with a username but no
password: the descriptor is SOCKS (type 4) and carries no auth
token. -/
theorem descriptor_shape_invariant_witness :
    ((∃ n, socks4Descriptor.socksType = some n ∧ (n = 4 ∨ n = 5)) ↔
        socks4Descriptor.proxyType = "socks") ∧
    (socks4Descriptor.socksType = none ↔ socks4Descriptor.proxyType = "http") ∧
    ((jsTruthy (some "u") = false ∨ jsTruthy (none : Option String) = false) →
        socks4Descriptor.proxyAuth = "") ∧
    (jsTruthy (some "u") = true → jsTruthy (none : Option String) = true →
        socks4Descriptor.proxyAuth = makeAuth ((some "u").getD "") ((none : Option String).getD "")) :=
  descriptor_shape_invariant "socks4://x:9" (some "u") none socks4Descriptor (by decide)

/-- Claim C5 (code bug): the outbound SOCKS-forwarded request is
addressed to the request's own target URL and carries the SOCKS
transport, but the inbound `proxy-authorization` header is NOT
stripped: `delete headers['Proxy-Authorization']` names the
capitalized key, while Node delivers inbound header names lowercased,
so the header survives into the outbound header map. -/
theorem socks_auth_header_not_stripped :
    (makeSocksRequestOptions socksGateway authedGetReq).map
        (fun o => (lookupCILast o.headers "proxy-authorization",
                   o.hostname, o.port, o.path, o.method, o.agent))
      = some (some "Basic dXNlcjpwYXNz",
              "example.com", "", "/", "GET", some "socks://127.0.0.1:1080") ∧
    objDelete [("Proxy-Authorization", "x")] "Proxy-Authorization" = [] := by
  exact ⟨by decide, by decide⟩

/-- Claim C6: the HTTP-forwarded request is addressed to the upstream
host and port, keeps the original request target as its path, and its
header object is the original headers plus a `Proxy-Authorization`
entry set to the descriptor's auth token — which, replayed through
`http.request`'s case-insensitive last-write-wins header handling,
overwrites any inbound value of that header, while every other
inbound header is preserved. -/
theorem http_forward_options_spec (popt : TinyProxyOptions) (req : IncomingRequest)
    (hlc : ∀ e ∈ req.headers, lowerStr e.1 = e.1) :
    (makeHttpRequestOptions popt req).hostname = popt.proxyHost ∧
    (makeHttpRequestOptions popt req).port = popt.proxyPort ∧
    (makeHttpRequestOptions popt req).path = req.url ∧
    (makeHttpRequestOptions popt req).method = req.method ∧
    lookupCILast (makeHttpRequestOptions popt req).headers "proxy-authorization"
      = some popt.proxyAuth ∧
    (∀ e ∈ req.headers, lowerStr e.1 ≠ "proxy-authorization" →
        e ∈ (makeHttpRequestOptions popt req).headers) := by
  have hne : ∀ e ∈ req.headers, ¬(e.1 = "Proxy-Authorization") := by
    intro e he h1
    have := hlc e he
    rw [h1] at this
    exact absurd this (by decide)
  have hset : objSet req.headers "Proxy-Authorization" popt.proxyAuth
      = req.headers ++ [("Proxy-Authorization", popt.proxyAuth)] := by
    unfold objSet
    rw [if_neg]
    simp only [List.any_eq_true, decide_eq_true_eq, not_exists]
    intro e
    intro h
    exact absurd h (by
      rintro ⟨he, h1⟩
      exact hne e he h1)
  refine ⟨rfl, rfl, rfl, rfl, ?_, ?_⟩
  · show lookupCILast (objSet req.headers "Proxy-Authorization" popt.proxyAuth)
        "proxy-authorization" = some popt.proxyAuth
    rw [hset]
    unfold lookupCILast
    rw [List.filter_append]
    have hkey : (decide (lowerStr "Proxy-Authorization" = lowerStr "proxy-authorization"))
        = true := by decide
    have hfil : List.filter (fun e => decide (lowerStr e.1 = lowerStr "proxy-authorization"))
        [("Proxy-Authorization", popt.proxyAuth)]
        = [("Proxy-Authorization", popt.proxyAuth)] := by
      simp only [List.filter, hkey]
    rw [hfil, List.getLast?_concat]
    rfl
  · intro e he _
    show e ∈ objSet req.headers "Proxy-Authorization" popt.proxyAuth
    rw [hset]
    exact List.mem_append_left _ he

/-- Witness for C6 at a concrete request whose inbound headers carry a
lowercased proxy-authorization entry. -/
theorem http_forward_options_spec_witness :
    (makeHttpRequestOptions httpGateway authedGetReq).hostname = httpGateway.proxyHost ∧
    (makeHttpRequestOptions httpGateway authedGetReq).port = httpGateway.proxyPort ∧
    (makeHttpRequestOptions httpGateway authedGetReq).path = authedGetReq.url ∧
    (makeHttpRequestOptions httpGateway authedGetReq).method = authedGetReq.method ∧
    lookupCILast (makeHttpRequestOptions httpGateway authedGetReq).headers "proxy-authorization"
      = some httpGateway.proxyAuth ∧
    (∀ e ∈ authedGetReq.headers, lowerStr e.1 ≠ "proxy-authorization" →
        e ∈ (makeHttpRequestOptions httpGateway authedGetReq).headers) :=
  http_forward_options_spec httpGateway authedGetReq (by decide)

lemma stepHTTP_srv_mono (v : String) (t : TState) (e : TEvent) (h : t.srv.ended = true) :
    (stepHTTP v t e).srv.ended = true := by
  cases e <;>
    simp only [stepHTTP, onClientErrorMkConn, onClientErrorHttpConn, onClientErrorPipe,
      onSrvErrorWrite500, onSrvErrorEndBoth, endSock] <;>
    (repeat' split) <;> simp_all

lemma stepHTTP_client_mono (v : String) (t : TState) (e : TEvent) (h : t.client.ended = true) :
    (stepHTTP v t e).client.ended = true := by
  cases e <;>
    simp only [stepHTTP, onClientErrorMkConn, onClientErrorHttpConn, onClientErrorPipe,
      onSrvErrorWrite500, onSrvErrorEndBoth, endSock] <;>
    (repeat' split) <;> simp_all

lemma stepSocks_srv_mono (v : String) (t : TState) (e : TEvent) (h : t.srv.ended = true) :
    (stepSocks v t e).srv.ended = true := by
  cases e <;>
    simp only [stepSocks, onClientErrorMkConn, onClientErrorPipe,
      onSrvErrorWrite500, endSock] <;>
    (repeat' split) <;> simp_all

lemma stepSocks_client_mono (v : String) (t : TState) (e : TEvent) (h : t.client.ended = true) :
    (stepSocks v t e).client.ended = true := by
  cases e <;>
    simp only [stepSocks, onClientErrorMkConn, onClientErrorPipe,
      onSrvErrorWrite500, endSock] <;>
    (repeat' split) <;> simp_all

lemma stepHTTP_tinv (v : String) (t : TState) (e : TEvent) (h : tinv t) :
    tinv (stepHTTP v t e) := by
  obtain ⟨h1, h2, h3⟩ := h
  cases e <;>
    simp only [stepHTTP, onClientErrorMkConn, onClientErrorHttpConn, onClientErrorPipe,
      onSrvErrorWrite500, onSrvErrorEndBoth, endSock, tinv] <;>
    (repeat' split) <;>
    refine ⟨?_, ?_, ?_⟩ <;> intro hf <;> simp_all

lemma stepSocks_tinv (v : String) (t : TState) (e : TEvent) (h : tinv t) :
    tinv (stepSocks v t e) := by
  obtain ⟨h1, h2, h3⟩ := h
  cases e <;>
    simp only [stepSocks, onClientErrorMkConn, onClientErrorPipe,
      onSrvErrorWrite500, endSock, tinv] <;>
    (repeat' split) <;>
    refine ⟨?_, ?_, ?_⟩ <;> intro hf <;> simp_all

lemma stepHTTP_clientError_srv (v : String) (t : TState) :
    (stepHTTP v t .clientError).srv.ended = true := by
  simp only [stepHTTP, onClientErrorMkConn, onClientErrorHttpConn, onClientErrorPipe, endSock]

lemma stepHTTP_clientClose_srv (v : String) (t : TState) (h : tinv t) :
    (stepHTTP v t .clientClose).srv.ended = true := by
  by_cases hf : t.clientCloseFired = true
  · simpa [stepHTTP, hf] using h.1 hf
  · simp [stepHTTP, hf, endSock]

lemma stepHTTP_srvError_client (v : String) (t : TState) :
    (stepHTTP v t .srvError).client.ended = true := by
  simp only [stepHTTP, onSrvErrorWrite500, onSrvErrorEndBoth, endSock]

lemma stepHTTP_srvClose_client (v : String) (t : TState) (h : tinv t) :
    (stepHTTP v t .srvClose).client.ended = true := by
  by_cases hf : t.srvCloseFired = true
  · simpa [stepHTTP, hf] using h.2.1 hf
  · simp [stepHTTP, hf, endSock]

lemma stepSocks_clientError_srv (v : String) (t : TState) :
    (stepSocks v t .clientError).srv.ended = true := by
  simp only [stepSocks, onClientErrorMkConn, onClientErrorPipe, endSock]

lemma stepSocks_clientClose_srv (v : String) (t : TState) (h : tinv t) :
    (stepSocks v t .clientClose).srv.ended = true := by
  by_cases hf : t.clientCloseFired = true
  · simpa [stepSocks, hf] using h.1 hf
  · simp [stepSocks, hf, endSock]

lemma stepSocks_srvError_client (v : String) (t : TState) :
    (stepSocks v t .srvError).client.ended = true := by
  simp only [stepSocks, onSrvErrorWrite500, endSock]

lemma stepSocks_srvClose_client (v : String) (t : TState) (h : tinv t) :
    (stepSocks v t .srvClose).client.ended = true := by
  by_cases hf : t.srvCloseFired = true
  · simpa [stepSocks, hf] using h.2.1 hf
  · simp [stepSocks, hf, endSock]

lemma foldl_srv_mono (f : TState → TEvent → TState)
    (hm : ∀ t e, t.srv.ended = true → (f t e).srv.ended = true) :
    ∀ (evs : List TEvent) (t : TState), t.srv.ended = true →
      (evs.foldl f t).srv.ended = true := by
  intro evs
  induction evs with
  | nil => exact fun t h => h
  | cons e rest ih => exact fun t h => ih _ (hm t e h)

lemma foldl_client_mono (f : TState → TEvent → TState)
    (hm : ∀ t e, t.client.ended = true → (f t e).client.ended = true) :
    ∀ (evs : List TEvent) (t : TState), t.client.ended = true →
      (evs.foldl f t).client.ended = true := by
  intro evs
  induction evs with
  | nil => exact fun t h => h
  | cons e rest ih => exact fun t h => ih _ (hm t e h)

lemma foldl_srv_of_client_evt (f : TState → TEvent → TState)
    (hm : ∀ t e, t.srv.ended = true → (f t e).srv.ended = true)
    (hi : ∀ t e, tinv t → tinv (f t e))
    (hcc : ∀ t, tinv t → (f t .clientClose).srv.ended = true)
    (hce : ∀ t, (f t .clientError).srv.ended = true) :
    ∀ (evs : List TEvent) (t : TState), tinv t →
      (TEvent.clientClose ∈ evs ∨ TEvent.clientError ∈ evs) →
      (evs.foldl f t).srv.ended = true := by
  intro evs
  induction evs with
  | nil => intro t _ h; simp at h
  | cons e rest ih =>
    intro t ht h
    rcases h with h | h
    · rcases List.mem_cons.mp h with he | hrest
      · rw [List.foldl_cons, ← he]
        exact foldl_srv_mono f hm rest _ (hcc t ht)
      · exact ih _ (hi t e ht) (Or.inl hrest)
    · rcases List.mem_cons.mp h with he | hrest
      · rw [List.foldl_cons, ← he]
        exact foldl_srv_mono f hm rest _ (hce t)
      · exact ih _ (hi t e ht) (Or.inr hrest)

lemma foldl_client_of_srv_evt (f : TState → TEvent → TState)
    (hm : ∀ t e, t.client.ended = true → (f t e).client.ended = true)
    (hi : ∀ t e, tinv t → tinv (f t e))
    (hsc : ∀ t, tinv t → (f t .srvClose).client.ended = true)
    (hse : ∀ t, (f t .srvError).client.ended = true) :
    ∀ (evs : List TEvent) (t : TState), tinv t →
      (TEvent.srvClose ∈ evs ∨ TEvent.srvError ∈ evs) →
      (evs.foldl f t).client.ended = true := by
  intro evs
  induction evs with
  | nil => intro t _ h; simp at h
  | cons e rest ih =>
    intro t ht h
    rcases h with h | h
    · rcases List.mem_cons.mp h with he | hrest
      · rw [List.foldl_cons, ← he]
        exact foldl_client_mono f hm rest _ (hsc t ht)
      · exact ih _ (hi t e ht) (Or.inl hrest)
    · rcases List.mem_cons.mp h with he | hrest
      · rw [List.foldl_cons, ← he]
        exact foldl_client_mono f hm rest _ (hse t)
      · exact ih _ (hi t e ht) (Or.inr hrest)

lemma tinv_initTunnel : tinv initTunnel := by
  refine ⟨?_, ?_, ?_⟩ <;> intro h <;> simp [initTunnel] at h

/-- Claim C1: in a successfully tunneled CONNECT session (through an
HTTP or a SOCKS upstream alike), any event run containing a client
close or error leaves the upstream socket ended, and any event run
containing an upstream close or error leaves the client socket ended;
`end()` is idempotent, so a close handler running after the other side
already ended performs a harmless second end and raises nothing. -/
theorem tunnel_close_propagation (version : String) (evs : List TEvent) :
    ((TEvent.clientClose ∈ evs ∨ TEvent.clientError ∈ evs) →
        (runHTTP version evs).srv.ended = true ∧ (runSocks version evs).srv.ended = true) ∧
    ((TEvent.srvClose ∈ evs ∨ TEvent.srvError ∈ evs) →
        (runHTTP version evs).client.ended = true ∧ (runSocks version evs).client.ended = true) ∧
    (∀ s : SockState, endSock (endSock s) = endSock s) := by
  refine ⟨fun h => ⟨?_, ?_⟩, fun h => ⟨?_, ?_⟩, fun s => rfl⟩
  · exact foldl_srv_of_client_evt (stepHTTP version) (stepHTTP_srv_mono version)
      (stepHTTP_tinv version) (stepHTTP_clientClose_srv version)
      (stepHTTP_clientError_srv version) evs initTunnel tinv_initTunnel h
  · exact foldl_srv_of_client_evt (stepSocks version) (stepSocks_srv_mono version)
      (stepSocks_tinv version) (stepSocks_clientClose_srv version)
      (stepSocks_clientError_srv version) evs initTunnel tinv_initTunnel h
  · exact foldl_client_of_srv_evt (stepHTTP version) (stepHTTP_client_mono version)
      (stepHTTP_tinv version) (stepHTTP_srvClose_client version)
      (stepHTTP_srvError_client version) evs initTunnel tinv_initTunnel h
  · exact foldl_client_of_srv_evt (stepSocks version) (stepSocks_client_mono version)
      (stepSocks_tinv version) (stepSocks_srvClose_client version)
      (stepSocks_srvError_client version) evs initTunnel tinv_initTunnel h

/-- Witness for C1 on the concrete event run where the client closes
and then the upstream closes. -/
theorem tunnel_close_propagation_witness :
    ((runHTTP "1.1" [TEvent.clientClose, TEvent.srvClose]).srv.ended = true ∧
     (runSocks "1.1" [TEvent.clientClose, TEvent.srvClose]).srv.ended = true) ∧
    ((runHTTP "1.1" [TEvent.clientClose, TEvent.srvClose]).client.ended = true ∧
     (runSocks "1.1" [TEvent.clientClose, TEvent.srvClose]).client.ended = true) := by
  have h := tunnel_close_propagation "1.1" [TEvent.clientClose, TEvent.srvClose]
  exact ⟨h.1 (Or.inl (by simp)), h.2.1 (Or.inl (by simp))⟩

end TinyProxyChain
